import Mathlib

/-!
Verification development for the bookpeek backend proxy.

The Python sources under `api/app/services` and `api/app/routers` are
shallowly embedded below: Python dictionaries and JSON payloads become the
`JVal` inductive, `datetime` timestamps become integers measured in
milliseconds, the in-memory cache becomes an association list threaded
explicitly, and the outcome of an outbound HTTP request becomes an explicit
argument so that every embedded operation is a total computable function.
-/

namespace BookPeek

/-- A JSON-like value: the shape of Python dictionaries, lists and scalars as
they flow through the service layer. Numbers are modelled as integers (no
claim computes with a fractional payload number). -/
inductive JVal where
  | null
  | bool (b : Bool)
  | num (n : ℤ)
  | str (s : String)
  | arr (xs : List JVal)
  | obj (fs : List (String × JVal))
deriving Repr

/-- Python truthiness for `JVal`: `None`, `False`, `0`, `""`, `[]` and `{}`
are falsy, everything else is truthy. -/
def jTruthy : JVal → Bool
  | .null => false
  | .bool b => b
  | .num n => !(n = 0 : Bool)
  | .str s => !(s = "" : Bool)
  | .arr xs => !xs.isEmpty
  | .obj fs => !fs.isEmpty

/-- Field lookup in an object, `none` when absent or not an object. -/
def jLookup : JVal → String → Option JVal
  | .obj fs, k => fs.lookup k
  | _, _ => none

/-- The Python type name of a value, used to render exception messages. -/
def pyTypeName : JVal → String
  | .null => "NoneType"
  | .bool _ => "bool"
  | .num _ => "int"
  | .str _ => "str"
  | .arr _ => "list"
  | .obj _ => "dict"

/-- Python iteration: lists yield elements, dicts yield their keys, strings
yield one-character strings; scalars are not iterable. -/
def pyIter : JVal → Option (List JVal)
  | .arr xs => some xs
  | .obj fs => some (fs.map (fun p => JVal.str p.1))
  | .str s => some (s.data.map (fun c => JVal.str (String.singleton c)))
  | _ => none

/-- Python `d.get(key, default)`: raises `AttributeError` (modelled as
`Except.error`) when the receiver is not a dict. -/
def pyGetD : JVal → String → JVal → Except String JVal
  | .obj fs, k, d => .ok ((fs.lookup k).getD d)
  | v, _, _ => .error (pyTypeName v ++ " object has no attribute get")

/-- Python `d.get(key)`, defaulting to `None`. -/
def pyGetV (v : JVal) (k : String) : Except String JVal :=
  pyGetD v k .null

/-- Python `a or b`: returns `a` when truthy, else `b`. -/
def pyOr (a b : JVal) : JVal :=
  if jTruthy a then a else b

/-- Model of Python `str.strip()` whitespace. -/
def pyIsSpace (c : Char) : Bool :=
  c = ' ' || c = Char.ofNat 9 || c = Char.ofNat 10 || c = Char.ofNat 13 ||
  c = Char.ofNat 11 || c = Char.ofNat 12

/-- Model of Python `str.strip()`: remove leading and trailing whitespace. -/
def pyStrip (s : String) : String :=
  String.mk (((s.data.dropWhile pyIsSpace).reverse.dropWhile pyIsSpace).reverse)

/-! ### Input validation (`GoogleBooksSearchService.validate_search_input`) -/

/-- The characters rejected by `validate_search_input`
(`<`, `>`, `{`, `}`, backslash, backtick, newline, carriage return, tab). -/
def forbiddenChars : List Char :=
  [Char.ofNat 60, Char.ofNat 62, Char.ofNat 123, Char.ofNat 125,
   Char.ofNat 92, Char.ofNat 96, Char.ofNat 10, Char.ofNat 13, Char.ofNat 9]

/-- `GoogleBooksSearchService.validate_search_input` (search_service.py
lines 273-297): rejects a query that is empty or shorter than 2 after
stripping, contains a forbidden character (checked on the raw query), or whose
raw length exceeds 500. -/
def validate_search_input (query : String) : Bool :=
  if query = "" ∨ (pyStrip query).length < 2 then false
  else if forbiddenChars.any (fun c => query.data.contains c) then false
  else if query.length > 500 then false
  else true

/-- Modelled from the spec's words, for comparison with the source function:
"a query is valid only if, after trimming, its length is ≥ 2 and ≤ 500
characters and it contains none of the characters
`< > \x7b \x7d \ backtick newline carriage-return tab`". Every constraint is
checked on the trimmed query. -/
def specValidWords (query : String) : Bool :=
  let t := pyStrip query
  2 ≤ t.length && t.length ≤ 500 && !(forbiddenChars.any (fun c => t.data.contains c))

/-! ### Cache key derivation (`APIService._get_cache_key`) -/

/-- One hexadecimal digit, uppercase, as produced by Python `urllib` percent
escapes. -/
def hexDigit (n : ℕ) : Char :=
  if n < 10 then Char.ofNat (48 + n) else Char.ofNat (55 + n)

/-- Bytes left unescaped by Python's `quote_plus` with empty `safe`:
ASCII alphanumerics and `_ . - ~`. -/
def isUnreservedByte (b : ℕ) : Bool :=
  (48 ≤ b && b ≤ 57) || (65 ≤ b && b ≤ 90) || (97 ≤ b && b ≤ 122) ||
  b = 95 || b = 46 || b = 45 || b = 126

/-- `urllib.parse.quote_plus` on one UTF-8 byte: space becomes `+`, unreserved
bytes stand for themselves, everything else is percent-escaped. -/
def quotePlusByte (b : ℕ) : String :=
  if b = 32 then "+"
  else if isUnreservedByte b then String.singleton (Char.ofNat b)
  else "%" ++ String.singleton (hexDigit (b / 16)) ++ String.singleton (hexDigit (b % 16))

/-- The UTF-8 encoding of one character as a list of byte values. -/
def utf8Bytes (c : Char) : List ℕ :=
  let n := c.toNat
  if n < 128 then [n]
  else if n < 2048 then [192 + n / 64, 128 + n % 64]
  else if n < 65536 then [224 + n / 4096, 128 + (n / 64) % 64, 128 + n % 64]
  else [240 + n / 262144, 128 + (n / 4096) % 64, 128 + (n / 64) % 64, 128 + n % 64]

/-- `urllib.parse.quote_plus` on a string (escapes applied bytewise to the
UTF-8 encoding). -/
def quotePlus (s : String) : String :=
  (((s.data.flatMap utf8Bytes).map quotePlusByte).foldl (· ++ ·) "")

/-- `urllib.parse.urlencode` over the dictionary's insertion order:
`k=v` pairs joined by `&`, keys and values escaped by `quote_plus`. -/
def urlencode (params : List (String × String)) : String :=
  String.intercalate "&" (params.map (fun p => quotePlus p.1 ++ "=" ++ quotePlus p.2))

/-- `APIService._get_cache_key` (api_service.py lines 51-55): the URL alone
when the parameter dict is empty or absent, else `url?urlencode(params)`.
The parameter dictionary is modelled as a list of pairs in insertion order. -/
def getCacheKey (url : String) (params : List (String × String)) : String :=
  if params.isEmpty then url else url ++ "?" ++ urlencode params

/-! ### Cache store (`APIService` cache fields and methods)

Timestamps are integers measured in milliseconds; `datetime.now()` becomes an
explicit `now` argument at each entry point. The Python dict
`cache_key -> (data, timestamp)` becomes an association list with unique keys.
-/

/-- `APIService.cache_ttl = timedelta(minutes=15)`, in milliseconds. -/
def cacheTTL : ℤ := 900000

/-- The cache: key, cached data, insertion timestamp. -/
abbrev CacheMap (α : Type) := List (String × α × ℤ)

/-- Association-list lookup of a cache entry. -/
def cacheLookup {α : Type} : CacheMap α → String → Option (α × ℤ)
  | [], _ => none
  | e :: rest, k => if e.1 = k then some e.2 else cacheLookup rest k

/-- Python `del cache[key]`. -/
def cacheErase {α : Type} (c : CacheMap α) (k : String) : CacheMap α :=
  c.filter (fun e => e.1 ≠ k)

/-- `APIService._get_from_cache` (api_service.py lines 57-67): a present,
unexpired entry is returned and the cache is untouched; a present expired
entry is deleted and the read is a miss; an absent key is a miss. -/
def getFromCache {α : Type} (c : CacheMap α) (k : String) (now : ℤ) :
    Option α × CacheMap α :=
  match cacheLookup c k with
  | some (v, ts) => if now - ts < cacheTTL then (some v, c) else (none, cacheErase c k)
  | none => (none, c)

/-- `APIService._clean_cache` (api_service.py lines 77-85): drop every entry
whose age is at least the TTL. -/
def cleanCache {α : Type} (c : CacheMap α) (now : ℤ) : CacheMap α :=
  c.filter (fun e => now - e.2.2 < cacheTTL)

/-- `APIService._set_cache` (api_service.py lines 69-75): overwrite the entry
with the current timestamp, then sweep expired entries. -/
def setCache {α : Type} (c : CacheMap α) (k : String) (v : α) (now : ℤ) : CacheMap α :=
  cleanCache ((k, v, now) :: cacheErase c k) now

/-! ### Rate limiter (`APIService._apply_rate_limit`)

`asyncio.sleep` is modelled by advancing the clock by exactly the requested
amount, the tightest schedule the code permits; `datetime.now()` after the
sleep therefore reads `now + (delay - elapsed)`.
-/

/-- `APIService.rate_limit_delay = 0.1` seconds, in milliseconds. -/
def rateDelay : ℤ := 100

/-- `APIService._apply_rate_limit` (api_service.py lines 43-49): given the
recorded `last_request_time` and the current time, returns the time recorded
as the new `last_request_time` (the dispatch time, after any sleep). -/
def applyRateLimit (last : Option ℤ) (now : ℤ) : ℤ :=
  match last with
  | some t => if now - t < rateDelay then now + (rateDelay - (now - t)) else now
  | none => now

/-- The dispatch times of a sequence of `_apply_rate_limit` calls made at the
given clock readings, threading `last_request_time`. -/
def rateDispatches : Option ℤ → List ℤ → List ℤ
  | _, [] => []
  | last, n :: rest =>
    let d := applyRateLimit last n
    d :: rateDispatches (some d) rest

/-- A physically possible schedule: each call's clock reading is no earlier
than the recorded timestamp left by the previous call. -/
def validCallTimes : Option ℤ → List ℤ → Bool
  | _, [] => true
  | none, n :: rest => validCallTimes (some (applyRateLimit none n)) rest
  | some t, n :: rest =>
    if t ≤ n then validCallTimes (some (applyRateLimit (some t) n)) rest else false

/-! ### Fetch client (`APIService.get`)

The outcome of the outbound `session.get` is an explicit argument: either an
HTTP response (status, optional `Retry-After` header, JSON body, body text) or
one of the transport-level exceptions the code catches.
-/

/-- What the outbound HTTP GET did. -/
inductive FetchOutcome where
  | response (status : ℕ) (retryAfter : Option String) (body : JVal) (text : String)
  | timeout
  | clientError (msg : String)
  | exn (msg : String)

/-- The mutable fields of an `APIService` instance touched by `get`. -/
structure APIState where
  cache : CacheMap JVal
  lastRequestTime : Option ℤ

/-- The classification of a fetch outcome performed inside the `try` block of
`APIService.get` after the cache miss (api_service.py lines 121-185), plus the
cache write on HTTP 200. Returns the result dictionary and the updated cache. -/
def classifyOutcome (cache : CacheMap JVal) (key : String) (useCache : Bool)
    (now : ℤ) (outcome : FetchOutcome) : JVal × CacheMap JVal :=
  match outcome with
  | .response s retryAfter body text =>
      if s = 200 then
        (JVal.obj [("success", .bool true), ("data", body), ("status", .num 200)],
         if useCache then setCache cache key body now else cache)
      else if s = 429 then
        (JVal.obj [("success", .bool false), ("error", .str "Rate limit exceeded"),
          ("status", .num 429),
          ("retry_after", match retryAfter with | some h => .str h | none => .num 60)],
         cache)
      else if s = 404 then
        (JVal.obj [("success", .bool false), ("error", .str "Resource not found"),
          ("status", .num 404)], cache)
      else
        (JVal.obj [("success", .bool false), ("error", .str ("API error: " ++ toString s)),
          ("status", .num s), ("details", .str text)], cache)
  | .timeout =>
      (JVal.obj [("success", .bool false), ("error", .str "Request timeout"),
        ("status", .num 0)], cache)
  | .clientError msg =>
      (JVal.obj [("success", .bool false), ("error", .str ("Network error: " ++ msg)),
        ("status", .num 0)], cache)
  | .exn msg =>
      (JVal.obj [("success", .bool false), ("error", .str ("Unexpected error: " ++ msg)),
        ("status", .num 0)], cache)

/-- `APIService.get` (api_service.py lines 87-185). With `use_cache`, a truthy
unexpired cached value is returned as-is (the read may evict an expired
entry); otherwise the rate limiter runs, the request is issued, and the
outcome is classified. Headers only decorate the request and are omitted. -/
def APIServiceGet (st : APIState) (url : String) (params : List (String × String))
    (useCache : Bool) (now : ℤ) (outcome : FetchOutcome) : JVal × APIState :=
  let key := getCacheKey url params
  let afterFetch := fun (cache : CacheMap JVal) =>
    let d := applyRateLimit st.lastRequestTime now
    ((classifyOutcome cache key useCache now outcome).1,
     APIState.mk (classifyOutcome cache key useCache now outcome).2 (some d))
  if useCache then
    match getFromCache st.cache key now with
    | (some v, cache1) =>
        if jTruthy v then (v, APIState.mk cache1 st.lastRequestTime)
        else afterFetch cache1
    | (none, cache1) => afterFetch cache1
  else afterFetch st.cache

/-- The value `APIService.get` would return from its cache-hit early exit, if
any: a present, unexpired, truthy cached value for this request. -/
def cacheHitValue (st : APIState) (url : String) (params : List (String × String))
    (now : ℤ) : Option JVal :=
  match getFromCache st.cache (getCacheKey url params) now with
  | (some v, _) => if jTruthy v then some v else none
  | (none, _) => none

/-! ### Normalizer (`GoogleBooksSearchService._parse_book_item`)

Python exceptions inside the `try` block are modelled with `Except String`;
the surrounding `except` turns any error into `none`.
-/

/-- The `BookSearchResult` dataclass (search_service.py lines 18-37); fields
hold whatever `JVal` the untyped extraction produced, absent values being
`JVal.null`. -/
structure BookSearchResult where
  id : JVal
  title : JVal
  authors : JVal
  description : JVal
  isbn : JVal
  isbn13 : JVal
  cover_image : JVal
  thumbnail : JVal
  published_date : JVal
  publisher : JVal
  page_count : JVal
  categories : JVal
  average_rating : JVal
  ratings_count : JVal
  language : JVal
  preview_link : JVal
  info_link : JVal

/-- `dataclasses.asdict` on a `BookSearchResult`: an object in declaration
field order. -/
def asdictB (b : BookSearchResult) : JVal :=
  .obj [("id", b.id), ("title", b.title), ("authors", b.authors),
    ("description", b.description), ("isbn", b.isbn), ("isbn13", b.isbn13),
    ("cover_image", b.cover_image), ("thumbnail", b.thumbnail),
    ("published_date", b.published_date), ("publisher", b.publisher),
    ("page_count", b.page_count), ("categories", b.categories),
    ("average_rating", b.average_rating), ("ratings_count", b.ratings_count),
    ("language", b.language), ("preview_link", b.preview_link),
    ("info_link", b.info_link)]

/-- One step of the identifier loop (search_service.py lines 232-236): an
`ISBN_10` entry overwrites the first component, an `ISBN_13` entry the second. -/
def isbnStep (acc : JVal × JVal) (ident : JVal) : Except String (JVal × JVal) := do
  let t ← pyGetV ident "type"
  match t with
  | .str s =>
      if s = "ISBN_10" then do
        let i ← pyGetV ident "identifier"
        pure (i, acc.2)
      else if s = "ISBN_13" then do
        let i ← pyGetV ident "identifier"
        pure (acc.1, i)
      else pure acc
  | _ => pure acc

/-- The identifier-extraction loop of `_parse_book_item` (search_service.py
lines 228-236), iterating over `volume_info.get('industryIdentifiers', [])`. -/
def extractIsbns (idsV : JVal) : Except String (JVal × JVal) :=
  match pyIter idsV with
  | none => .error (pyTypeName idsV ++ " object is not iterable")
  | some ids => ids.foldlM isbnStep (JVal.null, JVal.null)

/-- The `http:` → `https:` rewrite applied to a truthy image URL
(search_service.py lines 243-247); a truthy non-string would raise. -/
def httpsRewrite (v : JVal) : Except String JVal :=
  if jTruthy v then
    match v with
    | .str s => .ok (.str (if s.startsWith "http:" then "https:" ++ s.drop 5 else s))
    | w => .error (pyTypeName w ++ " object has no attribute startswith")
  else .ok v

/-- The body of the `try` block of `_parse_book_item` (search_service.py
lines 224-267). -/
def parseBookItemCore (item : JVal) : Except String BookSearchResult := do
  let volumeInfo ← pyGetD item "volumeInfo" (.obj [])
  let _saleInfo ← pyGetD item "saleInfo" (.obj [])
  let identifiers ← pyGetD volumeInfo "industryIdentifiers" (.arr [])
  let (isbn, isbn13) ← extractIsbns identifiers
  let imageLinks ← pyGetD volumeInfo "imageLinks" (.obj [])
  let large ← pyGetV imageLinks "large"
  let medium ← pyGetV imageLinks "medium"
  let small ← pyGetV imageLinks "small"
  let coverImage0 := pyOr (pyOr large medium) small
  let thumb ← pyGetV imageLinks "thumbnail"
  let smallThumb ← pyGetV imageLinks "smallThumbnail"
  let thumbnail0 := pyOr thumb smallThumb
  let coverImage ← httpsRewrite coverImage0
  let thumbnail ← httpsRewrite thumbnail0
  let idV ← pyGetD item "id" (.str "")
  let title ← pyGetD volumeInfo "title" (.str "Unknown Title")
  let authors ← pyGetD volumeInfo "authors" (.arr [])
  let description ← pyGetV volumeInfo "description"
  let publishedDate ← pyGetV volumeInfo "publishedDate"
  let publisher ← pyGetV volumeInfo "publisher"
  let pageCount ← pyGetV volumeInfo "pageCount"
  let categories ← pyGetD volumeInfo "categories" (.arr [])
  let averageRating ← pyGetV volumeInfo "averageRating"
  let ratingsCount ← pyGetV volumeInfo "ratingsCount"
  let language ← pyGetV volumeInfo "language"
  let previewLink ← pyGetV volumeInfo "previewLink"
  let infoLink ← pyGetV volumeInfo "infoLink"
  pure (BookSearchResult.mk idV title authors description isbn isbn13 coverImage
    thumbnail publishedDate publisher pageCount categories averageRating
    ratingsCount language previewLink infoLink)

/-- `GoogleBooksSearchService._parse_book_item` (search_service.py lines
214-271): any exception during extraction yields `None`. -/
def parseBookItem (item : JVal) : Option BookSearchResult :=
  match parseBookItemCore item with
  | .ok b => some b
  | .error _ => none

/-- The normalization loop of `search_books` (search_service.py lines
111-115): parse each item, keep the `asdict` of the successes in order. -/
def parseBatch (items : List JVal) : List JVal :=
  items.foldl (fun acc it =>
    match parseBookItem it with
    | some b => acc ++ [asdictB b]
    | none => acc) []

/-! ### Search service (`GoogleBooksSearchService.search_books`)

The upstream API is an explicit argument mapping the request parameters to an
outcome, and `search_books` additionally returns the list of outbound calls it
made, so that "no outbound call" is observable.
-/

/-- What the search service's own `session.get` did. -/
inductive UpOutcome where
  | response (status : ℕ) (body : JVal) (text : String)
  | clientError (msg : String)
  | exn (msg : String)

/-- The failure shape of `search_books`: `{success: False, error, books: []}`. -/
def failObjS (err : String) : JVal :=
  .obj [("success", .bool false), ("error", .str err), ("books", .arr [])]

/-- `GoogleBooksSearchService.base_url`. -/
def googleBooksBaseUrl : String := "https://www.googleapis.com/books/v1/volumes"

/-- `max_results = min(max(1, max_results), 40)` (search_service.py line 86). -/
def clampMaxResults (mr : ℤ) : ℤ := min (max 1 mr) 40

/-- The parameter dictionary built by `search_books` (search_service.py lines
89-100), in insertion order; integer values are rendered as Python would. -/
def buildSearchParams (apiKey query : String) (mr si : ℤ) (orderBy : String)
    (lang : Option String) : List (String × String) :=
  [("q", query), ("maxResults", toString mr), ("startIndex", toString si),
   ("orderBy", orderBy)]
  ++ (if apiKey = "" then [] else [("key", apiKey)])
  ++ (match lang with
      | some l => if l = "" then [] else [("langRestrict", l)]
      | none => [])

/-- The HTTP 200 branch of `search_books` (search_service.py lines 107-124):
iterate `data.get('items', [])` through the normalizer and build the success
dictionary; an exception (non-dict body, non-iterable items) falls to the
generic handler's `{success: False, error: str(e), books: []}`. -/
def searchSuccess (body : JVal) (query : String) (si mr : ℤ) : JVal :=
  match (do
    let items ← pyGetD body "items" (.arr [])
    let xs ← match pyIter items with
      | some xs => Except.ok xs
      | none => Except.error (pyTypeName items ++ " object is not iterable")
    let total ← pyGetD body "totalItems" (.num 0)
    pure (JVal.obj [("success", .bool true), ("total_items", total),
      ("books", .arr (parseBatch xs)), ("query", .str query),
      ("start_index", .num si), ("max_results", .num mr)]) :
    Except String JVal) with
  | .ok v => v
  | .error e => failObjS e

/-- `GoogleBooksSearchService.search_books` (search_service.py lines 60-157).
Returns the result dictionary and the list of outbound calls made (each call
recorded by its parameter list). The empty-query `ValueError` is caught by the
generic handler, producing its message with no outbound call. -/
def searchBooks (apiKey query : String) (maxResults si : ℤ) (orderBy : String)
    (lang : Option String) (upstream : List (String × String) → UpOutcome) :
    JVal × List (List (String × String)) :=
  if query = "" ∨ pyStrip query = "" then
    (failObjS "Search query cannot be empty", [])
  else
    let mr := clampMaxResults maxResults
    let params := buildSearchParams apiKey query mr si orderBy lang
    match upstream params with
    | .response s body _ =>
        if s = 200 then (searchSuccess body query si mr, [params])
        else if s = 429 then
          (failObjS "Rate limit exceeded. Please try again later.", [params])
        else (failObjS ("API error: " ++ toString s), [params])
    | .clientError _ => (failObjS "Network error occurred", [params])
    | .exn m => (failObjS m, [params])

/-- The error string of a result dictionary, empty when absent. -/
def jErrStr (v : JVal) : String :=
  match jLookup v "error" with
  | some (.str s) => s
  | _ => ""

/-- Follows the spec's words, not the source, for comparison with
`searchBooks`: spec §4.5 says the free-text search "delegates to Fetch
Client", i.e. routes the request through `APIService.get` (with its caching
and rate limiting) and reports the Fetch Client's error on failure. -/
def searchBooksDelegating (st : APIState) (apiKey query : String)
    (maxResults si : ℤ) (orderBy : String) (lang : Option String) (now : ℤ)
    (outcome : FetchOutcome) : JVal :=
  if query = "" ∨ pyStrip query = "" then failObjS "Search query cannot be empty"
  else
    let mr := clampMaxResults maxResults
    let params := buildSearchParams apiKey query mr si orderBy lang
    let r := (APIServiceGet st googleBooksBaseUrl params true now outcome).1
    match jLookup r "success", jLookup r "data" with
    | some (.bool true), some body => searchSuccess body query si mr
    | _, _ => failObjS (jErrStr r)

/-- Truthiness of an optional string field (Python `None` and `""` are falsy). -/
def optFieldTruthy : Option String → Bool
  | some s => !(s = "" : Bool)
  | none => false

/-- Modelled from the spec: the field-scoped query clauses of
`GoogleBooksSearchService.advanced_search`. The method is called by
`routers/search.py` and asserted to exist by the test suite, but its
definition is absent from the source tree; spec §3/§4.5 give the clause
grammar `intitle:"<value>" inauthor:"<value>" inpublisher:"<value>"
subject:"<value>" isbn:<digits>`, supplied fields only, in this order. -/
def advancedClauses (title author publisher category isbn : Option String) :
    List String :=
  (match title with
   | some t => if t = "" then [] else ["intitle:\"" ++ t ++ "\""]
   | none => [])
  ++ (match author with
      | some a => if a = "" then [] else ["inauthor:\"" ++ a ++ "\""]
      | none => [])
  ++ (match publisher with
      | some p => if p = "" then [] else ["inpublisher:\"" ++ p ++ "\""]
      | none => [])
  ++ (match category with
      | some c => if c = "" then [] else ["subject:\"" ++ c ++ "\""]
      | none => [])
  ++ (match isbn with
      | some i => if i = "" then [] else ["isbn:" ++ i]
      | none => [])

/-- Modelled from the spec: `GoogleBooksSearchService.advanced_search` (absent
from the source tree; spec §4.5): with no non-empty field it fails fast with
an explicit error and makes no upstream call; otherwise it joins the supplied
field clauses with a single space and delegates to the free-text search. -/
def advancedSearch (apiKey : String)
    (title author publisher category isbn : Option String)
    (maxResults si : ℤ) (orderBy : String) (lang : Option String)
    (upstream : List (String × String) → UpOutcome) :
    JVal × List (List (String × String)) :=
  let clauses := advancedClauses title author publisher category isbn
  if clauses.isEmpty then
    (.obj [("success", .bool false),
       ("error", .str "At least one search criteria must be provided"),
       ("books", .arr [])], [])
  else
    searchBooks apiKey (String.intercalate " " clauses) maxResults si orderBy
      lang upstream

/-! ### Auxiliary definitions for the theorems -/

/-- A well-formed typed identifier entry, as in the upstream schema's
`industryIdentifiers` items. -/
def mkIdent (t i : String) : JVal :=
  .obj [("type", .str t), ("identifier", .str i)]

/-- The identifier of the last entry carrying the given type tag, with an
explicit default, in accumulator-passing form. -/
def lastIdentOfTypeD (t : String) : List (String × String) → JVal → JVal
  | [], d => d
  | p :: l, d => lastIdentOfTypeD t l (if p.1 = t then .str p.2 else d)

/-- The identifier of the last entry carrying the given type tag (`null` when
no entry matches), characterized through `filter` and `getLast?`. -/
def lastIdentOfType (t : String) (l : List (String × String)) : JVal :=
  match (l.filter (fun p => p.1 = t)).getLast? with
  | some p => .str p.2
  | none => .null

/-- The string carried by a `JVal.str`, else the empty string. -/
def jStrD : JVal → String
  | .str s => s
  | _ => ""

/-- An upstream item whose identifier list holds two `ISBN_10` entries. -/
def isbnCexItem : JVal :=
  .obj [("id", .str "x"),
    ("volumeInfo", .obj [("industryIdentifiers",
      .arr [mkIdent "ISBN_10" "111", mkIdent "ISBN_10" "222"])])]

/-! ## Shared lemmas -/

/-- A successful cache lookup exhibits a member of the association list. -/
theorem cacheLookup_mem {α : Type} {l : CacheMap α} {k : String} {x : α × ℤ}
    (h : cacheLookup l k = some x) : (k, x) ∈ l := by
  induction l with
  | nil => simp [cacheLookup] at h
  | cons e rest ih =>
    rw [cacheLookup] at h
    by_cases he : e.1 = k
    · rw [if_pos he] at h
      injection h with h2
      subst h2
      subst he
      exact List.mem_cons_self _ _
    · rw [if_neg he] at h
      exact List.mem_cons_of_mem _ (ih h)

/-- After `_set_cache`, the written key maps to the written value with the
write timestamp. -/
theorem cacheLookup_setCache_self {α : Type} (c : CacheMap α) (k : String)
    (v : α) (t : ℤ) : cacheLookup (setCache c k v t) k = some (v, t) := by
  unfold setCache cleanCache
  simp only [List.filter_cons]
  rw [if_pos]
  · simp [cacheLookup]
  · simp [cacheTTL]

/-- The recorded timestamp after `_apply_rate_limit` is at least the previous
one plus the minimum delay. -/
theorem applyRateLimit_ge (t n : ℤ) (_h : t ≤ n) :
    t + rateDelay ≤ applyRateLimit (some t) n := by
  simp only [applyRateLimit]
  split <;> omega

/-- Auxiliary induction for the rate limiter: starting from a recorded
timestamp `t`, every physically possible schedule yields dispatch times that
are pairwise at least `rateDelay` apart, the first being at least
`t + rateDelay`. -/
theorem rateChain_aux (ts : List ℤ) : ∀ (t : ℤ),
    validCallTimes (some t) ts = true →
    List.Chain' (fun a b => a + rateDelay ≤ b) (rateDispatches (some t) ts) ∧
    ∀ d ∈ (rateDispatches (some t) ts).head?, t + rateDelay ≤ d := by
  induction ts with
  | nil => intro t _; simp [rateDispatches]
  | cons n rest ih =>
    intro t hv
    rw [validCallTimes] at hv
    by_cases h : t ≤ n
    · rw [if_pos h] at hv
      obtain ⟨hc, hh⟩ := ih (applyRateLimit (some t) n) hv
      rw [rateDispatches]
      refine ⟨List.chain'_cons'.mpr ⟨fun y hy => hh y hy, hc⟩, ?_⟩
      intro d hd
      simp only [List.head?_cons, Option.mem_def, Option.some.injEq] at hd
      subst hd
      exact applyRateLimit_ge t n h
    · rw [if_neg h] at hv
      exact absurd hv (by simp)

/-! ## C1: cache store TTL semantics -/

/-- C1. Cache Store get/put obey the 15-minute TTL: a value written by
`_set_cache` is returned by `_get_from_cache` while its age is below the TTL;
a read of an entry whose age has reached the TTL deletes it and misses;
`_set_cache` records the write time as the entry's timestamp and then removes
every entry whose age is at least the TTL. -/
theorem cache_ttl_semantics {α : Type} (c : CacheMap α) (k : String) (v : α)
    (t tg : ℤ) :
    (tg - t < cacheTTL → (getFromCache (setCache c k v t) k tg).1 = some v)
  ∧ (∀ w ts, cacheLookup c k = some (w, ts) → cacheTTL ≤ tg - ts →
      getFromCache c k tg = (none, cacheErase c k))
  ∧ cacheLookup (setCache c k v t) k = some (v, t)
  ∧ (∀ kq w ts, cacheLookup (setCache c k v t) kq = some (w, ts) →
      t - ts < cacheTTL) := by
  refine ⟨?_, ?_, cacheLookup_setCache_self c k v t, ?_⟩
  · intro h
    unfold getFromCache
    rw [cacheLookup_setCache_self]
    simp [h]
  · intro w ts hl httl
    unfold getFromCache
    rw [hl]
    dsimp only
    rw [if_neg (by omega)]
  · intro kq w ts h
    have hm := cacheLookup_mem h
    unfold setCache at hm
    have := List.of_mem_filter hm
    simpa using this

/-- Witness for C1 at concrete inputs: a fresh write is readable 100ms later;
a 15-minute-old entry is evicted on read; the write records its timestamp. -/
theorem cache_ttl_semantics_witness :
    (getFromCache (setCache [("j", (9:ℕ), 0)] "k" 7 1000000) "k" 1000100).1 = some 7
  ∧ getFromCache [("k", (9:ℕ), 0)] "k" 900000 = (none, [])
  ∧ cacheLookup (setCache [("j", (9:ℕ), 0)] "k" 7 1000000) "k" = some (7, 1000000) := by
  refine ⟨(cache_ttl_semantics [("j", (9:ℕ), 0)] "k" 7 1000000 1000100).1 (by decide),
    ?_, (cache_ttl_semantics [("j", (9:ℕ), 0)] "k" 7 1000000 1000100).2.2.1⟩
  have h := (cache_ttl_semantics (α := ℕ) [("k", 9, 0)] "k" 7 0 900000).2.1 9 0
    (by decide) (by decide)
  exact h.trans (by decide)

/-! ## C2: rate limiter minimum-delay invariant -/

/-- C2. Rate limiter minimum-delay invariant: along any physically possible
sequence of `_apply_rate_limit` calls on one instance (each call's clock
reading no earlier than the timestamp recorded by the previous call), a call
arriving within the minimum delay of the recorded dispatch sleeps for the
remaining difference and records the new time, so consecutive recorded
dispatch times are never less than `rate_limit_delay` (100ms) apart. -/
theorem rate_limiter_min_delay (ts : List ℤ)
    (h : validCallTimes none ts = true) :
    List.Chain' (fun a b => a + rateDelay ≤ b) (rateDispatches none ts) := by
  cases ts with
  | nil => simp [rateDispatches]
  | cons n rest =>
    rw [validCallTimes] at h
    obtain ⟨hc, hh⟩ := rateChain_aux rest (applyRateLimit none n) h
    rw [rateDispatches]
    exact List.chain'_cons'.mpr ⟨fun y hy => hh y hy, hc⟩

/-- Witness for C2: two calls 40ms apart dispatch exactly 100ms apart. -/
theorem rate_limiter_min_delay_witness :
    validCallTimes none [0, 40] = true
  ∧ List.Chain' (fun a b => a + rateDelay ≤ b) (rateDispatches none [0, 40])
  ∧ rateDispatches none [0, 40] = [0, 100] :=
  ⟨by decide, rate_limiter_min_delay [0, 40] (by decide), by decide⟩

/-! ## C4: cache key order-(in)dependence -/

/-- Counterexample for C4: the two parameter dictionaries are equal as
key-value maps (one is a permutation of the other), yet `_get_cache_key`
produces different key strings, because `urlencode` follows insertion order. -/
theorem cache_key_order_cex :
    ([("a", "1"), ("b", "2")] : List (String × String)).Perm [("b", "2"), ("a", "1")]
  ∧ getCacheKey "u" [("a", "1"), ("b", "2")] ≠ getCacheKey "u" [("b", "2"), ("a", "1")] :=
  ⟨List.Perm.swap _ _ _, by decide⟩

/-- C4 (amended). `_get_cache_key` is determined by the URL and the
parameters' urlencoded rendering in insertion order: for a fixed URL, two
parameter lists map to the same key exactly when both are empty or both are
nonempty with identical urlencoded strings. Order-independence does not hold. -/
theorem cache_key_characterization (url : String) (p1 p2 : List (String × String)) :
    getCacheKey url p1 = getCacheKey url p2 ↔
      ((p1 = [] ∧ p2 = []) ∨ (p1 ≠ [] ∧ p2 ≠ [] ∧ urlencode p1 = urlencode p2)) := by
  have hlen : ∀ q : List (String × String), q ≠ [] →
      url ≠ url ++ "?" ++ urlencode q := by
    intro q _ he
    have := congrArg String.length he
    rw [String.length_append, String.length_append] at this
    have h1 : ("?" : String).length = 1 := rfl
    omega
  unfold getCacheKey
  by_cases h1 : p1 = [] <;> by_cases h2 : p2 = [] <;>
    simp only [h1, h2, List.isEmpty_nil, if_pos, if_true]
  · simp
  · rw [if_neg (by simpa using h2)]
    simp only [ne_eq, h2, not_false_iff]
    constructor
    · intro he; exact absurd he (hlen p2 h2)
    · rintro (⟨-, h⟩ | ⟨h, -⟩) <;> simp_all
  · rw [if_neg (by simpa using h1)]
    constructor
    · intro he; exact absurd he.symm (hlen p1 h1)
    · rintro (⟨h, -⟩ | ⟨-, h, -⟩) <;> simp_all
  · rw [if_neg (by simpa using h1), if_neg (by simpa using h2)]
    constructor
    · intro he
      have hd := congrArg String.data he
      simp only [String.data_append] at hd
      have := List.append_cancel_left hd
      refine Or.inr ⟨h1, h2, ?_⟩
      cases hu1 : urlencode p1
      all_goals cases hu2 : urlencode p2
      all_goals rw [hu1, hu2] at this
      all_goals simp_all
    · rintro (⟨h, -⟩ | ⟨-, -, h⟩)
      · simp_all
      · rw [h]

/-! ## C6: input validation predicate -/

/-- Counterexample for C6: `"ab\t"` is valid by the spec's reading (trimmed
to `"ab"`, length 2, no forbidden characters after trimming), yet
`validate_search_input` rejects it, because the forbidden-character scan runs
on the raw query whose trailing tab is a forbidden character. -/
theorem validate_input_cex :
    specValidWords "ab\t" = true ∧ validate_search_input "ab\t" = false := by
  constructor <;> decide

/-- C6 (amended). `validate_search_input` returns true iff the *trimmed*
query has length at least 2, the *raw* query contains none of the forbidden
characters, and the *raw* query has length at most 500. -/
theorem validate_input_characterization (q : String) :
    validate_search_input q = true ↔
      (2 ≤ (pyStrip q).length ∧ (∀ c ∈ forbiddenChars, c ∉ q.data) ∧
        q.length ≤ 500) := by
  unfold validate_search_input
  split_ifs with h1 h2 h3
  · simp only [Bool.false_eq_true, false_iff]
    rintro ⟨hl, -, -⟩
    rcases h1 with h | h
    · rw [h] at hl; simp [pyStrip] at hl
    · omega
  · simp only [Bool.false_eq_true, false_iff]
    rintro ⟨-, hc, -⟩
    rw [List.any_eq_true] at h2
    obtain ⟨c, hcf, hcq⟩ := h2
    exact hc c hcf (by simpa using hcq)
  · simp only [Bool.false_eq_true, false_iff]
    rintro ⟨-, -, hl⟩
    omega
  · simp only [true_iff]
    push_neg at h1
    refine ⟨by omega, ?_, by omega⟩
    intro c hcf hcq
    exact h2 (List.any_eq_true.mpr ⟨c, hcf, by simpa using hcq⟩)

/-! ## C7: ISBN extraction -/

/-- The accumulator-passing form of "last entry of the type wins" agrees with
the `filter`/`getLast?` characterization. -/
theorem lastIdentOfTypeD_eq (t : String) (l : List (String × String)) : ∀ d,
    lastIdentOfTypeD t l d =
      (match (l.filter (fun p => p.1 = t)).getLast? with
       | some p => JVal.str p.2
       | none => d) := by
  induction l with
  | nil => intro d; simp [lastIdentOfTypeD]
  | cons p l ih =>
    intro d
    rw [lastIdentOfTypeD, ih]
    by_cases h : p.1 = t
    · simp only [List.filter_cons, h, decide_True, if_pos, if_true]
      cases hq : l.filter (fun p => decide (p.1 = t)) with
      | nil => simp [hq]
      | cons a as =>
        simp only [hq, List.getLast?_cons_cons]
        cases hg : (a :: as).getLast? with
        | none => simp at hg
        | some x => rfl
    · simp [List.filter_cons, h]

/-- One loop step on a well-formed identifier entry. -/
theorem isbnStep_mkIdent (acc : JVal × JVal) (a b : String) :
    isbnStep acc (mkIdent a b) =
      .ok (if a = "ISBN_10" then (JVal.str b, acc.2)
           else if a = "ISBN_13" then (acc.1, JVal.str b)
           else acc) := by
  by_cases h10 : a = "ISBN_10"
  · subst h10; rfl
  · by_cases h13 : a = "ISBN_13"
    · subst h13; rfl
    · simp only [isbnStep, mkIdent, pyGetV, pyGetD, List.lookup, BEq.beq,
        String.decEq, Bind.bind, Except.bind]
      simp [h10, h13]
      rfl

/-- The identifier loop over well-formed entries computes the last match per
type, in accumulator-passing form. -/
theorem isbn_foldl_mkIdents (l : List (String × String)) : ∀ acc : JVal × JVal,
    (l.map (fun p => mkIdent p.1 p.2)).foldlM isbnStep acc =
      .ok (lastIdentOfTypeD "ISBN_10" l acc.1, lastIdentOfTypeD "ISBN_13" l acc.2) := by
  induction l with
  | nil => intro acc; rfl
  | cons p l ih =>
    intro acc
    rw [List.map_cons, List.foldlM_cons, isbnStep_mkIdent]
    rw [lastIdentOfTypeD, lastIdentOfTypeD]
    by_cases h10 : p.1 = "ISBN_10"
    · have h13 : ¬ p.1 = "ISBN_13" := by rw [h10]; decide
      simp only [h10, h13, if_pos, if_true, if_neg, if_false, ite_false, ite_true]
      simpa using ih (JVal.str p.2, acc.2)
    · by_cases h13 : p.1 = "ISBN_13"
      · simp only [h10, h13, ite_false, ite_true, if_neg, if_pos]
        simpa using ih (acc.1, JVal.str p.2)
      · simp only [h10, h13, ite_false]
        simpa using ih acc

/-- Counterexample for C7: an item with two `ISBN_10` identifier entries
(`"111"` then `"222"`) is normalized with `isbn = "222"`; the first entry does
not win. -/
theorem isbn_first_match_cex :
    (parseBookItem isbnCexItem).map (fun b => jStrD b.isbn) = some "222"
  ∧ ("222" : String) ≠ "111" :=
  ⟨rfl, by decide⟩

/-- C7 (amended). The normalizer's identifier extraction is last-match-wins:
on a list of well-formed typed identifier entries, `isbn` is the identifier of
the *last* `ISBN_10` entry and `isbn13` that of the *last* `ISBN_13` entry
(`null` when the type does not occur); later duplicates overwrite earlier
ones. -/
theorem isbn_last_match (l : List (String × String)) :
    extractIsbns (.arr (l.map (fun p => mkIdent p.1 p.2))) =
      .ok (lastIdentOfType "ISBN_10" l, lastIdentOfType "ISBN_13" l) := by
  unfold extractIsbns
  simp only [pyIter]
  rw [isbn_foldl_mkIdents, lastIdentOfTypeD_eq, lastIdentOfTypeD_eq]
  rfl

/-! ## C8: normalizer fault isolation -/

/-- C8. Normalizer fault isolation: when extraction of an item raises (the
`try` body returns an error), `_parse_book_item` returns `None`, and the batch
loop of `search_books` produces the same output as if the faulty item were
absent — one malformed item never aborts the batch. -/
theorem parse_item_fault_isolation (item : JVal) (e : String)
    (h : parseBookItemCore item = .error e) (pre post : List JVal) :
    parseBookItem item = none
  ∧ parseBatch (pre ++ item :: post) = parseBatch (pre ++ post) := by
  have hn : parseBookItem item = none := by unfold parseBookItem; rw [h]
  refine ⟨hn, ?_⟩
  unfold parseBatch
  rw [List.foldl_append, List.foldl_append, List.foldl_cons]
  simp [hn]

/-- Witness for C8: a scalar item (whose `item.get` raises) is dropped while
the rest of the batch proceeds. -/
theorem parse_item_fault_isolation_witness :
    parseBookItem (JVal.num 3) = none
  ∧ parseBatch [JVal.obj [], JVal.num 3] = parseBatch [JVal.obj []] :=
  parse_item_fault_isolation (JVal.num 3) "int object has no attribute get" rfl
    [JVal.obj []] []

/-! ## C3 and C10: fetch client result shapes -/

/-- The result component of the outcome classification does not depend on the
cache contents. -/
theorem classifyOutcome_fst_cache (c cq : CacheMap JVal) (key : String)
    (useCache : Bool) (now : ℤ) (outcome : FetchOutcome) :
    (classifyOutcome c key useCache now outcome).1 =
      (classifyOutcome cq key useCache now outcome).1 := by
  cases outcome with
  | response s ra body text =>
    simp only [classifyOutcome]
    split_ifs <;> rfl
  | timeout => rfl
  | clientError m => rfl
  | exn m => rfl

/-- When the cache-hit early exit does not fire, `APIService.get` returns the
classification of the fetch outcome. -/
theorem APIServiceGet_miss_fst (st : APIState) (url : String)
    (params : List (String × String)) (useCache : Bool) (now : ℤ)
    (outcome : FetchOutcome)
    (hmiss : useCache = true → cacheHitValue st url params now = none) :
    (APIServiceGet st url params useCache now outcome).1 =
      (classifyOutcome st.cache (getCacheKey url params) useCache now outcome).1 := by
  by_cases hu : useCache = true
  · have h := hmiss hu
    unfold cacheHitValue at h
    rcases hg : getFromCache st.cache (getCacheKey url params) now with ⟨hv, c1⟩
    rw [hg] at h
    cases hv with
    | some v =>
      dsimp only at h
      have ht : jTruthy v = false := by
        by_cases ht : jTruthy v
        · rw [if_pos ht] at h; exact absurd h (by simp)
        · simpa using ht
      simp only [APIServiceGet, hu, if_true, hg, ht, Bool.false_eq_true, if_false]
      exact classifyOutcome_fst_cache _ _ _ _ _ _
    | none =>
      simp only [APIServiceGet, hu, if_true, hg]
      exact classifyOutcome_fst_cache _ _ _ _ _ _
  · have hu2 : useCache = false := by simpa using hu
    simp only [APIServiceGet, hu2, Bool.false_eq_true, if_false]

/-- C3 (amended). For every call to `APIService.get` that does not return a
cached payload (caching disabled, or no truthy unexpired cache entry), the
result is a dictionary with a `success` flag and the outcome classification
is: HTTP 200 → success with the parsed body; 429 → "Rate limit exceeded"
carrying the Retry-After header (60 when absent); 404 → "Resource not found";
any other status → "API error: <status>" with the body text as details; a
timeout → "Request timeout"; a transport error → "Network error: <detail>";
any other exception → "Unexpected error: <detail>". The embedding is a total
function, so no exception escapes. -/
theorem get_outcome_classification (st : APIState) (url : String)
    (params : List (String × String)) (useCache : Bool) (now : ℤ)
    (outcome : FetchOutcome)
    (hmiss : useCache = true → cacheHitValue st url params now = none) :
    ((jLookup (APIServiceGet st url params useCache now outcome).1 "success").isSome = true)
  ∧ (∀ ra body text, outcome = .response 200 ra body text →
      (APIServiceGet st url params useCache now outcome).1 =
        .obj [("success", .bool true), ("data", body), ("status", .num 200)])
  ∧ (∀ ra body text, outcome = .response 429 ra body text →
      (APIServiceGet st url params useCache now outcome).1 =
        .obj [("success", .bool false), ("error", .str "Rate limit exceeded"),
          ("status", .num 429),
          ("retry_after", match ra with | some h => .str h | none => .num 60)])
  ∧ (∀ ra body text, outcome = .response 404 ra body text →
      (APIServiceGet st url params useCache now outcome).1 =
        .obj [("success", .bool false), ("error", .str "Resource not found"),
          ("status", .num 404)])
  ∧ (∀ s ra body text, outcome = .response s ra body text →
      s ≠ 200 → s ≠ 429 → s ≠ 404 →
      (APIServiceGet st url params useCache now outcome).1 =
        .obj [("success", .bool false), ("error", .str ("API error: " ++ toString s)),
          ("status", .num s), ("details", .str text)])
  ∧ (outcome = .timeout →
      (APIServiceGet st url params useCache now outcome).1 =
        .obj [("success", .bool false), ("error", .str "Request timeout"),
          ("status", .num 0)])
  ∧ (∀ m, outcome = .clientError m →
      (APIServiceGet st url params useCache now outcome).1 =
        .obj [("success", .bool false), ("error", .str ("Network error: " ++ m)),
          ("status", .num 0)])
  ∧ (∀ m, outcome = .exn m →
      (APIServiceGet st url params useCache now outcome).1 =
        .obj [("success", .bool false), ("error", .str ("Unexpected error: " ++ m)),
          ("status", .num 0)]) := by
  have hr := APIServiceGet_miss_fst st url params useCache now outcome hmiss
  refine ⟨?_, ?_, ?_, ?_, ?_, ?_, ?_, ?_⟩
  · rw [hr]
    cases outcome with
    | response s ra body text =>
      simp only [classifyOutcome]
      split_ifs <;> rfl
    | timeout => rfl
    | clientError m => rfl
    | exn m => rfl
  · rintro ra body text rfl; rw [hr]; rfl
  · rintro ra body text rfl; rw [hr]; rfl
  · rintro ra body text rfl; rw [hr]; rfl
  · rintro s ra body text rfl h200 h429 h404
    rw [hr]
    simp only [classifyOutcome]
    rw [if_neg h200, if_neg h429, if_neg h404]
  · rintro rfl; rw [hr]; rfl
  · rintro m rfl; rw [hr]; rfl
  · rintro m rfl; rw [hr]; rfl

/-- Counterexample for C3: with a cached payload present, `APIService.get`
returns the raw payload, which carries no `success` flag at all. -/
theorem get_success_flag_cex :
    (APIServiceGet ⟨[("x", .obj [("totalItems", .num 3)], 0)], none⟩ "x" [] true 0
      (.response 200 none (.obj []) "")).1 = .obj [("totalItems", .num 3)]
  ∧ jLookup (.obj [("totalItems", .num 3)]) "success" = none :=
  ⟨rfl, rfl⟩

/-- Witness for C3 (amended) at a concrete miss: an empty cache and a 429
response with a Retry-After header. -/
theorem get_outcome_classification_witness :
    (APIServiceGet ⟨[], none⟩ "u" [] true 0
      (.response 429 (some "17") (.obj []) "")).1 =
      .obj [("success", .bool false), ("error", .str "Rate limit exceeded"),
        ("status", .num 429), ("retry_after", .str "17")] :=
  ((get_outcome_classification ⟨[], none⟩ "u" [] true 0
      (.response 429 (some "17") (.obj []) "") (fun _ => rfl)).2.2.1)
    (some "17") (.obj []) "" rfl

/-- C10. In `APIService.get` with caching enabled, a cache hit returns the
previously stored parsed payload directly, while a fresh successful fetch
returns it wrapped as `{success, data, status}`; when the cached payload has
no `success` key the two paths differ in shape, so a caller reading
`result['success']` on a hit misreads the payload. -/
theorem get_hit_miss_shape (st st2 : APIState) (url : String)
    (params : List (String × String)) (now : ℤ) (ra : Option String)
    (body : JVal) (text : String) (v : JVal)
    (hhit : cacheHitValue st url params now = some v)
    (hmiss : cacheHitValue st2 url params now = none)
    (hv : jLookup v "success" = none) :
    (APIServiceGet st url params true now (.response 200 ra body text)).1 = v
  ∧ (APIServiceGet st2 url params true now (.response 200 ra body text)).1 =
      .obj [("success", .bool true), ("data", body), ("status", .num 200)]
  ∧ jLookup (APIServiceGet st url params true now (.response 200 ra body text)).1
      "success" = none
  ∧ jLookup (APIServiceGet st2 url params true now (.response 200 ra body text)).1
      "success" = some (.bool true) := by
  have h1 : (APIServiceGet st url params true now (.response 200 ra body text)).1 = v := by
    unfold cacheHitValue at hhit
    rcases hg : getFromCache st.cache (getCacheKey url params) now with ⟨hw, c1⟩
    rw [hg] at hhit
    cases hw with
    | some w =>
      dsimp only at hhit
      by_cases ht : jTruthy w
      · rw [if_pos ht] at hhit
        injection hhit with hwv
        subst hwv
        simp only [APIServiceGet, if_true, hg, ht, if_pos]
      · rw [if_neg ht] at hhit; exact absurd hhit (by simp)
    | none => dsimp only at hhit; exact absurd hhit (by simp)
  have h2 : (APIServiceGet st2 url params true now (.response 200 ra body text)).1 =
      .obj [("success", .bool true), ("data", body), ("status", .num 200)] := by
    rw [APIServiceGet_miss_fst st2 url params true now _ (fun _ => hmiss)]
    rfl
  exact ⟨h1, h2, by rw [h1]; exact hv, by rw [h2]; rfl⟩

/-- Witness for C10 at a concrete cache state: the stored payload
`{"totalItems": 2}` is returned bare on a hit and wrapped on a miss. -/
theorem get_hit_miss_shape_witness :
    (APIServiceGet ⟨[("u", .obj [("totalItems", .num 2)], 0)], none⟩ "u" [] true 0
      (.response 200 none (.obj [("totalItems", .num 2)]) "")).1 =
      .obj [("totalItems", .num 2)]
  ∧ (APIServiceGet ⟨[], none⟩ "u" [] true 0
      (.response 200 none (.obj [("totalItems", .num 2)]) "")).1 =
      .obj [("success", .bool true), ("data", .obj [("totalItems", .num 2)]),
        ("status", .num 200)]
  ∧ jLookup (APIServiceGet ⟨[("u", .obj [("totalItems", .num 2)], 0)], none⟩ "u" []
      true 0 (.response 200 none (.obj [("totalItems", .num 2)]) "")).1
      "success" = none := by
  have h := get_hit_miss_shape ⟨[("u", .obj [("totalItems", .num 2)], 0)], none⟩
    ⟨[], none⟩ "u" [] 0 none (.obj [("totalItems", .num 2)]) ""
    (.obj [("totalItems", .num 2)]) rfl rfl rfl
  exact ⟨h.1, h.2.1, h.2.2.1⟩

/-! ## C5: free-text search contract -/

/-- Counterexample for C5's "delegates the request to the Fetch Client":
on an upstream 429 the source's `search_books` reports its own hard-coded
message, not the Fetch Client's 429 classification that the spec-side
delegating version surfaces — the request is issued by the search service's
own session, bypassing `APIService.get` (and its caching and rate limiting). -/
theorem search_books_delegation_cex :
    jErrStr (searchBooks "" "python" 5 0 "relevance" none
      (fun _ => .response 429 (.obj []) "")).1
      = "Rate limit exceeded. Please try again later."
  ∧ jErrStr (searchBooksDelegating ⟨[], none⟩ "" "python" 5 0 "relevance" none 0
      (.response 429 none (.obj []) ""))
      = "Rate limit exceeded"
  ∧ ("Rate limit exceeded. Please try again later." : String) ≠ "Rate limit exceeded" :=
  ⟨rfl, rfl, by decide⟩

/-- C5 (amended). `search_books` validates that the query is non-empty after
trimming (failing with its message and no outbound call otherwise), clamps
`max_results` into `[1, 40]`, builds `{q, maxResults, startIndex, orderBy}`
plus optional API key and language restriction, issues the upstream HTTP GET
itself with exactly those parameters, maps every item of a successful response
through the normalizer (dropping failures) into
`{success, total_items, books, query, start_index, max_results}`, and on any
failure returns `{success: false, error, books: []}`; the embedding is total,
so nothing escapes this boundary. -/
theorem search_books_contract (apiKey query : String) (mr si : ℤ)
    (orderBy : String) (lang : Option String)
    (upstream : List (String × String) → UpOutcome) :
    ((query = "" ∨ pyStrip query = "") →
      searchBooks apiKey query mr si orderBy lang upstream
        = (failObjS "Search query cannot be empty", []))
  ∧ (1 ≤ clampMaxResults mr ∧ clampMaxResults mr ≤ 40)
  ∧ ((buildSearchParams apiKey query (clampMaxResults mr) si orderBy lang).lookup "q"
        = some query
     ∧ (buildSearchParams apiKey query (clampMaxResults mr) si orderBy lang).lookup
         "maxResults" = some (toString (clampMaxResults mr))
     ∧ (buildSearchParams apiKey query (clampMaxResults mr) si orderBy lang).lookup
         "startIndex" = some (toString si)
     ∧ (buildSearchParams apiKey query (clampMaxResults mr) si orderBy lang).lookup
         "orderBy" = some orderBy
     ∧ (apiKey ≠ "" →
         (buildSearchParams apiKey query (clampMaxResults mr) si orderBy lang).lookup
           "key" = some apiKey)
     ∧ (apiKey = "" →
         (buildSearchParams apiKey query (clampMaxResults mr) si orderBy lang).lookup
           "key" = none)
     ∧ (∀ lr, lang = some lr → lr ≠ "" →
         (buildSearchParams apiKey query (clampMaxResults mr) si orderBy lang).lookup
           "langRestrict" = some lr))
  ∧ (¬(query = "" ∨ pyStrip query = "") →
      (searchBooks apiKey query mr si orderBy lang upstream).2
        = [buildSearchParams apiKey query (clampMaxResults mr) si orderBy lang])
  ∧ (∀ body text fs xs, ¬(query = "" ∨ pyStrip query = "") →
      upstream (buildSearchParams apiKey query (clampMaxResults mr) si orderBy lang)
        = .response 200 body text →
      body = .obj fs →
      pyIter ((fs.lookup "items").getD (.arr [])) = some xs →
      (searchBooks apiKey query mr si orderBy lang upstream).1
        = .obj [("success", .bool true),
            ("total_items", (fs.lookup "totalItems").getD (.num 0)),
            ("books", .arr (parseBatch xs)), ("query", .str query),
            ("start_index", .num si), ("max_results", .num (clampMaxResults mr))])
  ∧ (∀ s body text, ¬(query = "" ∨ pyStrip query = "") →
      upstream (buildSearchParams apiKey query (clampMaxResults mr) si orderBy lang)
        = .response s body text → s ≠ 200 →
      (searchBooks apiKey query mr si orderBy lang upstream).1
        = failObjS (if s = 429 then "Rate limit exceeded. Please try again later."
                    else "API error: " ++ toString s))
  ∧ (∀ m, ¬(query = "" ∨ pyStrip query = "") →
      upstream (buildSearchParams apiKey query (clampMaxResults mr) si orderBy lang)
        = .clientError m →
      (searchBooks apiKey query mr si orderBy lang upstream).1
        = failObjS "Network error occurred")
  ∧ (∀ m, ¬(query = "" ∨ pyStrip query = "") →
      upstream (buildSearchParams apiKey query (clampMaxResults mr) si orderBy lang)
        = .exn m →
      (searchBooks apiKey query mr si orderBy lang upstream).1 = failObjS m) := by
  refine ⟨?_, ?_, ⟨rfl, rfl, rfl, rfl, ?_, ?_, ?_⟩, ?_, ?_, ?_, ?_, ?_⟩
  · intro h
    unfold searchBooks
    rw [if_pos h]
  · unfold clampMaxResults
    omega
  · intro h
    simp [buildSearchParams, List.lookup, h]
  · intro h
    rcases lang with _ | lr
    · simp [buildSearchParams, List.lookup, h]
    · by_cases hl : lr = "" <;> simp [buildSearchParams, List.lookup, h, hl]
  · rintro lr rfl hl
    by_cases ha : apiKey = "" <;>
      simp [buildSearchParams, List.lookup, ha, hl]
  · intro h
    simp only [searchBooks, if_neg h]
    rcases hu : upstream (buildSearchParams apiKey query (clampMaxResults mr) si
        orderBy lang) with ⟨s, body, text⟩ | m | m <;> dsimp only
    split_ifs <;> rfl
  · rintro body text fs xs h hu rfl hiter
    simp only [searchBooks, if_neg h]
    rw [hu]
    dsimp only
    rw [if_pos rfl]
    simp only [searchSuccess, pyGetD, Bind.bind, Except.bind, hiter]
    rfl
  · rintro s body text h hu h200
    simp only [searchBooks, if_neg h]
    rw [hu]
    dsimp only
    rw [if_neg h200]
    split_ifs with h429 <;> rfl
  · rintro m h hu
    simp only [searchBooks, if_neg h]
    rw [hu]
  · rintro m h hu
    simp only [searchBooks, if_neg h]
    rw [hu]

/-- Witness for C5 (amended) at concrete inputs: an empty query fails without
calling upstream; a valid query against a 200 response with one item yields
the success shape; a 429 response yields the failure shape. -/
theorem search_books_contract_witness :
    searchBooks "k" "" 5 0 "relevance" none (fun _ => .response 200 (.obj []) "")
      = (failObjS "Search query cannot be empty", [])
  ∧ (searchBooks "k" "python" 5 0 "relevance" none
      (fun _ => .response 200
        (.obj [("totalItems", .num 1), ("items", .arr [.obj []])]) "")).1
      = .obj [("success", .bool true), ("total_items", .num 1),
          ("books", .arr (parseBatch [.obj []])), ("query", .str "python"),
          ("start_index", .num 0), ("max_results", .num 5)]
  ∧ (searchBooks "k" "python" 5 0 "relevance" none
      (fun _ => .response 429 (.obj []) "")).1
      = failObjS "Rate limit exceeded. Please try again later." := by
  refine ⟨(search_books_contract "k" "" 5 0 "relevance" none _).1 (Or.inl rfl),
    ?_, ?_⟩
  · have h := (search_books_contract "k" "python" 5 0 "relevance" none
      (fun _ => .response 200
        (.obj [("totalItems", .num 1), ("items", .arr [.obj []])]) "")).2.2.2.2.1
      (.obj [("totalItems", .num 1), ("items", .arr [.obj []])]) ""
      [("totalItems", .num 1), ("items", .arr [.obj []])] [.obj []]
      (by decide) rfl rfl rfl
    exact h.trans rfl
  · have h := (search_books_contract "k" "python" 5 0 "relevance" none
      (fun _ => .response 429 (.obj []) "")).2.2.2.2.2.1 429 (.obj []) ""
      (by decide) rfl (by decide)
    exact h.trans rfl

/-! ## C9: advanced search fail-fast -/

/-- A single field clause list is empty exactly when the field is falsy. -/
theorem advancedClauses_nil (title author publisher category isbn : Option String) :
    advancedClauses title author publisher category isbn = [] ↔
      (optFieldTruthy title = false ∧ optFieldTruthy author = false ∧
       optFieldTruthy publisher = false ∧ optFieldTruthy category = false ∧
       optFieldTruthy isbn = false) := by
  unfold advancedClauses optFieldTruthy
  rcases title with _ | t <;> rcases author with _ | a <;>
    rcases publisher with _ | p <;> rcases category with _ | c <;>
    rcases isbn with _ | i <;>
    simp_all

/-- C9. Advanced search fail-fast (the method is modelled from the spec, being
absent from the source tree): with all five fields empty the result is
`{success: false}` with an explicit error and no upstream call is made; with
at least one field supplied, the supplied field clauses joined by single
spaces are delegated to the free-text search. -/
theorem advanced_search_contract (apiKey : String)
    (title author publisher category isbn : Option String) (mr si : ℤ)
    (orderBy : String) (lang : Option String)
    (upstream : List (String × String) → UpOutcome) :
    (optFieldTruthy title = false → optFieldTruthy author = false →
     optFieldTruthy publisher = false → optFieldTruthy category = false →
     optFieldTruthy isbn = false →
      advancedSearch apiKey title author publisher category isbn mr si orderBy
          lang upstream
        = (.obj [("success", .bool false),
            ("error", .str "At least one search criteria must be provided"),
            ("books", .arr [])], []))
  ∧ ((optFieldTruthy title || optFieldTruthy author || optFieldTruthy publisher ||
      optFieldTruthy category || optFieldTruthy isbn) = true →
      advancedSearch apiKey title author publisher category isbn mr si orderBy
          lang upstream
        = searchBooks apiKey
            (String.intercalate " "
              (advancedClauses title author publisher category isbn))
            mr si orderBy lang upstream) := by
  constructor
  · intro h1 h2 h3 h4 h5
    have hnil : advancedClauses title author publisher category isbn = [] :=
      (advancedClauses_nil title author publisher category isbn).mpr
        ⟨h1, h2, h3, h4, h5⟩
    unfold advancedSearch
    rw [hnil]
    rfl
  · intro h
    have hne : advancedClauses title author publisher category isbn ≠ [] := by
      intro hnil
      have := (advancedClauses_nil title author publisher category isbn).mp hnil
      simp [this.1, this.2.1, this.2.2.1, this.2.2.2.1, this.2.2.2.2] at h
    unfold advancedSearch
    rw [if_neg (by simpa using hne)]

/-- Witness for C9: no fields (counting an explicitly empty one) fail fast
with no upstream call; three supplied fields delegate the space-joined
field-scoped query to the free-text search. -/
theorem advanced_search_contract_witness :
    advancedSearch "" none (some "") none none none 5 0 "relevance" none
      (fun _ => .response 200 (.obj []) "")
      = (.obj [("success", .bool false),
          ("error", .str "At least one search criteria must be provided"),
          ("books", .arr [])], [])
  ∧ advancedSearch "" (some "Python") (some "John Doe") none (some "Programming")
      none 5 0 "relevance" none (fun _ => .response 200 (.obj []) "")
      = searchBooks ""
          "intitle:\"Python\" inauthor:\"John Doe\" subject:\"Programming\""
          5 0 "relevance" none (fun _ => .response 200 (.obj []) "") := by
  constructor
  · exact (advanced_search_contract "" none (some "") none none none 5 0
      "relevance" none _).1 rfl rfl rfl rfl rfl
  · have h := (advanced_search_contract "" (some "Python") (some "John Doe") none
      (some "Programming") none 5 0 "relevance" none
      (fun _ => .response 200 (.obj []) "")).2 (by decide)
    have hq : String.intercalate " "
        (advancedClauses (some "Python") (some "John Doe") none
          (some "Programming") none)
        = "intitle:\"Python\" inauthor:\"John Doe\" subject:\"Programming\"" := by
      decide
    rw [h, hq]

end BookPeek
